import Mathlib

/-!
Shallow embedding of the `httpd_ack` package (parser.py, disc.py,
dreamcast.py, dumper.py).  Python exceptions are modelled with `Except`:
a raised `TypeError` / `AttributeError` / `AssertionError` / `ValueError`
aborts the computation.  Strings stay Lean `String`s; Python `in` on
strings is list-infix on the character data.
-/

/-- The kinds of Python exceptions the modelled code can raise. -/
inductive PyError where
  | typeError (msg : String)
  | attributeError (msg : String)
  | assertionError (msg : String)
  | valueError (msg : String)
  | indexError (msg : String)
  deriving DecidableEq, Repr

/-- Python `sub in s` for strings: `sub` occurs as a contiguous substring. -/
def pyStrInStr (sub s : String) : Bool := decide (sub.data <:+: s.data)

/-- Python `s.removeprefix(p)`. -/
def pyStripFront (s p : String) : String :=
  if p.data.isPrefixOf s.data then String.mk (s.data.drop p.data.length) else s

/-- Python `s.removesuffix(p)`. -/
def pyStripBack (s p : String) : String :=
  if p.data.isSuffixOf s.data then
    String.mk (s.data.take (s.data.length - p.data.length))
  else s

/-- One escaped character of a Python `repr` of a string, given the chosen
quote character `q` (39 = single quote, 34 = double quote). -/
def pyEscapeChar (q : Char) (c : Char) : String :=
  if c = Char.ofNat 92 then String.mk [Char.ofNat 92, Char.ofNat 92]
  else if c = q then String.mk [Char.ofNat 92, q]
  else if c = Char.ofNat 10 then String.mk [Char.ofNat 92, Char.ofNat 110]
  else if c = Char.ofNat 13 then String.mk [Char.ofNat 92, Char.ofNat 114]
  else if c = Char.ofNat 9 then String.mk [Char.ofNat 92, Char.ofNat 116]
  else String.mk [c]

/-- Character data of the escaped body of a Python string `repr`. -/
def pyEscapeBody (q : Char) (cs : List Char) : List Char :=
  (cs.map (fun c => (pyEscapeChar q c).data)).flatten

/-- Python `repr` of a string (quote selection as CPython: single quotes
unless the string holds a single quote and no double quote). -/
def pyReprStr (s : String) : String :=
  let q : Char :=
    if s.data.contains (Char.ofNat 39) && !(s.data.contains (Char.ofNat 34)) then
      Char.ofNat 34
    else Char.ofNat 39
  String.mk (q :: (pyEscapeBody q s.data ++ [q]))

/-- Python `str` of a list of strings: `[` repr-elements joined by `, ` `]`. -/
def pyStrOfStrList (xs : List String) : String :=
  "[" ++ String.intercalate ", " (xs.map pyReprStr) ++ "]"

/-- Python `s.lower()`: lower-case each character. -/
def pyLower (s : String) : String := String.mk (s.data.map Char.toLower)

/-- Python `"%s" % x` where `x : Option String` (`None` prints as `None`). -/
def pyStrOfOptStr : Option String → String
  | none => "None"
  | some s => s

/-! ## disc.py -/

/-- Model of `Track.__init__`; field layout: positional order `(url, name, start, end, size)`.
The parser passes the raw row strings, so all fields are strings. -/
structure Track where
  url : String
  name : String
  sector_start : String
  sector_end : String
  size : String
  deriving DecidableEq, Repr

/-- Model of `Disc.__init__` with its defaults. -/
structure Disc where
  is_dreamcast_disc : Bool := true
  title : String := "Unknown"
  media_id : String := "Unknown"
  media_config : String := "Unknown"
  region : String := "Unknown"
  peripheral_string : String := "Unknown"
  product_number : String := "Unknown"
  version : String := "Unknown"
  release_date : String := "Unknown"
  manufacturer_id : String := "Unknown"
  toc : String := "Unknown"
  tracks : List Track := []
  gdi_url : Option String := none
  deriving DecidableEq, Repr

/-- Model of `Disc.add_track`: append to the track list. -/
def Disc.add_track (d : Disc) (t : Track) : Disc :=
  { d with tracks := d.tracks ++ [t] }

/-- Model of `Disc.set_property`: `_display_to_property_name` lookup followed by
`setattr`; returns the updated disc and whether the property was set. -/
def Disc.set_property (d : Disc) (display_name : String) (value : String) :
    Disc × Bool :=
  match display_name with
  | "Title" => ({ d with title := value }, true)
  | "Media ID" => ({ d with media_id := value }, true)
  | "Media Config" => ({ d with media_config := value }, true)
  | "Regions" => ({ d with region := value }, true)
  | "Peripheral String" => ({ d with peripheral_string := value }, true)
  | "Product Number" => ({ d with product_number := value }, true)
  | "Version" => ({ d with version := value }, true)
  | "Release Date" => ({ d with release_date := value }, true)
  | "Manufacturer ID" => ({ d with manufacturer_id := value }, true)
  | "TOC" => ({ d with toc := value }, true)
  | _ => (d, false)

/-! ## dreamcast.py -/

/-- Model of `Dreamcast.__init__` with its defaults. -/
structure Dreamcast where
  bios_url : Option String := none
  flash_url : Option String := none
  syscalls_url : Option String := none
  deriving DecidableEq, Repr

/-- Model of `Dreamcast.set_url_property(self, url, file_name, _)`: note the THREE
positional parameters in the source; the third is ignored.  Returns the
updated object and whether a property was set. -/
def Dreamcast.set_url_property (dc : Dreamcast) (url : String)
    (file_name : String) (_x : String) : Dreamcast × Bool :=
  match file_name with
  | "dc_bios.bin" => ({ dc with bios_url := some url }, true)
  | "dc_flash.bin" => ({ dc with flash_url := some url }, true)
  | "syscalls.bin" => ({ dc with syscalls_url := some url }, true)
  | _ => (dc, false)

/-! ## parser.py -/

/-- The `TableParseTime` enum. -/
inductive TableParseTime where
  | Before
  | During
  | After
  deriving DecidableEq, Repr

/-- The mutable attributes of `HttpdAckParser`.  `in_table_cell` is an
`Option Bool` because `__init__` never assigns `self.__in_table_cell`:
`none` models the unassigned attribute (reading it raises
`AttributeError`); it is first assigned by a `<td>` start or end tag. -/
structure ParserState where
  disc : Disc := {}
  dreamcast : Dreamcast := {}
  server_version : Option String := none
  table_parse_time : TableParseTime := TableParseTime.Before
  in_table_header : Bool := false
  subtable : Option String := none
  table_cell_index : Option Nat := none
  table_row_data : List String := []
  in_table_cell : Option Bool := none
  deriving DecidableEq, Repr

/-- The parser state produced by `HttpdAckParser.__init__`. -/
def initState : ParserState := {}

/-- Model of `HttpdAckParser._is_non_dreamcast_disc_warning`: single-element rows
whose `str(row_data)` (the Python list repr) holds `Not Dreamcast disc`. -/
def is_non_dreamcast_disc_warning (row_data : List String) : Bool :=
  if row_data.length ≠ 1 then false
  else pyStrInStr "Not Dreamcast disc" (pyStrOfStrList row_data)

/-- Model of `HttpdAckParser._is_table_header_attrs`: any attribute pair
`bgcolor = #CCCCCC`. -/
def is_table_header_attrs (attrs : List (String × String)) : Bool :=
  attrs.any (fun p => p.1 == "bgcolor" && p.2 == "#CCCCCC")

/-- Model of `HttpdAckParser._handle_table_row_end`.  Stars (`*row_data`) unpack a
Python list into positional arguments, so a call with the wrong list
length raises `TypeError`; the `case _` arm is `assert False`. -/
def handle_table_row_end (s : ParserState) (subtable_name : Option String)
    (row_data : List String) : Except PyError ParserState :=
  let s := { s with table_cell_index := none }
  if s.in_table_header then
    Except.ok { s with in_table_header := false }
  else
    match subtable_name with
    | some "cd-rom" =>
      if is_non_dreamcast_disc_warning row_data then
        Except.ok { s with disc := { s.disc with is_dreamcast_disc := false } }
      else
        match row_data with
        | [dn, v] => Except.ok { s with disc := (s.disc.set_property dn v).1 }
        | _ => Except.error (PyError.typeError
            "set_property takes 2 positional arguments")
    | some "track" =>
      match row_data with
      | [u, n, st, en, sz] =>
        Except.ok { s with disc := s.disc.add_track ⟨u, n, st, en, sz⟩ }
      | _ => Except.error (PyError.typeError
          "Track takes 5 positional arguments")
    | some "misc" =>
      match row_data with
      | [url, fn, x] =>
        let r := s.dreamcast.set_url_property url fn x
        if r.2 then Except.ok { s with dreamcast := r.1 }
        else Except.ok { s with disc := { s.disc with gdi_url := some url } }
      | _ => Except.error (PyError.typeError
          "set_url_property takes 3 positional arguments")
    | _ => Except.error (PyError.assertionError
        ("Ended table row with unexpected subtable name " ++
          pyStrOfOptStr subtable_name))

/-- Model of `HttpdAckParser.handle_starttag`. -/
def handle_starttag (s : ParserState) (tag : String)
    (attrs : List (String × String)) : Except PyError ParserState :=
  if tag = "table" then
    Except.ok { s with table_parse_time := TableParseTime.During }
  else if tag = "tr" then
    if s.table_parse_time ≠ TableParseTime.During then
      Except.error (PyError.assertionError "tr outside table")
    else
      (if s.table_cell_index ≠ none then
        handle_table_row_end s s.subtable s.table_row_data
      else Except.ok s).map (fun s1 =>
        { s1 with in_table_header := is_table_header_attrs attrs,
                  table_cell_index := some 0,
                  table_row_data := [] })
  else if tag = "td" then
    if s.table_parse_time ≠ TableParseTime.During then
      Except.error (PyError.assertionError "td outside table")
    else
      Except.ok { s with in_table_cell := some true,
                         in_table_header :=
                           s.in_table_header || is_table_header_attrs attrs }
  else if tag = "a" then
    match s.in_table_cell with
    | none => Except.error (PyError.attributeError
        "HttpdAckParser object has no attribute in_table_cell")
    | some b =>
      if b then
        Except.ok { s with table_row_data := s.table_row_data ++
          (attrs.filterMap (fun p => if p.1 = "href" then some p.2 else none)) }
      else Except.ok s
  else Except.ok s

/-- Model of `HttpdAckParser.handle_endtag`. -/
def handle_endtag (s : ParserState) (tag : String) : Except PyError ParserState :=
  if tag = "table" then
    Except.ok { s with table_parse_time := TableParseTime.After }
  else if tag = "tr" then
    if s.table_parse_time ≠ TableParseTime.During then
      Except.error (PyError.assertionError "tr end outside table")
    else handle_table_row_end s s.subtable s.table_row_data
  else if tag = "td" then
    if s.table_parse_time ≠ TableParseTime.During then
      Except.error (PyError.assertionError "td end outside table")
    else
      match s.table_cell_index with
      | none => Except.error (PyError.typeError
          "unsupported operand types for add: NoneType and int")
      | some i =>
        Except.ok { s with table_cell_index := some (i + 1),
                           in_table_cell := some false }
  else Except.ok s

/-- Model of `HttpdAckParser.handle_data`. -/
def handle_data (s : ParserState) (dat : String) : Except PyError ParserState :=
  if s.table_parse_time = TableParseTime.Before then Except.ok s
  else if s.table_parse_time = TableParseTime.After then
    if pyStrInStr " server" dat then
      Except.ok
        { s with server_version :=
                   some (pyStripBack (pyStripFront dat "httpd-ack v") " server") }
    else Except.ok s
  else
    match s.table_cell_index with
    | none => Except.ok s
    | some i =>
      if s.in_table_header then
        if i = 0 then Except.ok { s with subtable := some (pyLower dat) }
        else Except.ok s
      else
        match s.in_table_cell with
        | none => Except.error (PyError.attributeError
            "HttpdAckParser object has no attribute in_table_cell")
        | some b =>
          if b then
            Except.ok { s with table_row_data := s.table_row_data ++ [dat] }
          else Except.ok s

/-- One markup event of the flat stream fed to the parser. -/
inductive Event where
  | startTag (tag : String) (attrs : List (String × String))
  | endTag (tag : String)
  | dataText (s : String)
  deriving DecidableEq, Repr

/-- Dispatch of one event to the corresponding handler. -/
def processEvent (s : ParserState) : Event → Except PyError ParserState
  | Event.startTag t attrs => handle_starttag s t attrs
  | Event.endTag t => handle_endtag s t
  | Event.dataText d => handle_data s d

/-- The single-pass run over a list of events; an exception aborts it. -/
def processEvents (s : ParserState) : List Event → Except PyError ParserState
  | [] => Except.ok s
  | e :: es =>
    match processEvent s e with
    | Except.ok s1 => processEvents s1 es
    | Except.error err => Except.error err

/-- Decidable equality of `Except` results, used to settle concrete runs. -/
instance {ε α : Type} [DecidableEq ε] [DecidableEq α] : DecidableEq (Except ε α) :=
  fun x y =>
  match x, y with
  | Except.ok a, Except.ok b =>
    if h : a = b then Decidable.isTrue (by rw [h])
    else Decidable.isFalse (by intro hc; cases hc; exact h rfl)
  | Except.error a, Except.error b =>
    if h : a = b then Decidable.isTrue (by rw [h])
    else Decidable.isFalse (by intro hc; cases hc; exact h rfl)
  | Except.ok _, Except.error _ => Decidable.isFalse (by intro hc; cases hc)
  | Except.error _, Except.ok _ => Decidable.isFalse (by intro hc; cases hc)

/-! ## dumper.py -/

/-- The configuration of `Dumper.__init__` (the output directory plays no
role in the modelled logic). -/
structure Dumper where
  disc : Disc
  dreamcast : Dreamcast
  server_url : String
  deriving DecidableEq, Repr

/-- Model of `Dumper._raise_if_invalid_url`: Python `if not file_url` is true for
`None` and for the empty string. -/
def raise_if_invalid_url (file_url : Option String) (file_display_name : String) :
    Except PyError String :=
  match file_url with
  | none => Except.error (PyError.valueError
      ("Unable to find download URL for " ++ file_display_name ++ "!"))
  | some u =>
    if u = "" then
      Except.error (PyError.valueError
        ("Unable to find download URL for " ++ file_display_name ++ "!"))
    else Except.ok u

/-- Model of `Dumper._dump_file`: resolves the URL against the server URL and
performs the download; the returned list records the downloads made. -/
def Dumper.dump_file (dmp : Dumper) (file_url : String) : List String :=
  let u := if pyStrInStr dmp.server_url file_url then file_url
           else dmp.server_url ++ "/" ++ file_url
  [u]

/-- Model of `Dumper.dump_bios`. -/
def Dumper.dump_bios (dmp : Dumper) : Except PyError (List String) :=
  (raise_if_invalid_url dmp.dreamcast.bios_url "Dreamcast BIOS").map dmp.dump_file

/-- Model of `Dumper.dump_flash`. -/
def Dumper.dump_flash (dmp : Dumper) : Except PyError (List String) :=
  (raise_if_invalid_url dmp.dreamcast.flash_url "Dreamcast flash").map dmp.dump_file

/-- Model of `Dumper.dump_syscalls`. -/
def Dumper.dump_syscalls (dmp : Dumper) : Except PyError (List String) :=
  (raise_if_invalid_url dmp.dreamcast.syscalls_url "Dreamcast Syscalls").map dmp.dump_file

/-- Model of `Dumper.dump_gdi` (the printing of the disc is console output and not modelled). -/
def Dumper.dump_gdi (dmp : Dumper) : Except PyError (List String) :=
  (raise_if_invalid_url dmp.disc.gdi_url "Disc GDI").map dmp.dump_file

/-- Python `len(n)` for an integer `n`: always a `TypeError`. -/
def pyLenOfInt (_n : Int) : Except PyError Nat :=
  Except.error (PyError.typeError "object of type int has no len")

/-- Model of `Dumper.dump_disc_track`: the source computes
`max_track_index = len(track_index) - 1` — `len` of the integer argument. -/
def Dumper.dump_disc_track (dmp : Dumper) (track_index : Int) :
    Except PyError (List String) :=
  match pyLenOfInt track_index with
  | Except.error e => Except.error e
  | Except.ok l =>
    let max_track_index : Int := (l : Int) - 1
    if track_index < 0 ∨ track_index > max_track_index then
      Except.error (PyError.valueError "Invalid track index passed!")
    else
      match dmp.disc.tracks.get? track_index.toNat with
      | none => Except.error (PyError.indexError "list index out of range")
      | some track =>
        (raise_if_invalid_url (some track.url) track.name).map dmp.dump_file

/-! ## Fixed lookup tables (the keys of the dictionaries in the source) -/

/-- The keys of `Disc._display_to_property_name`. -/
def discDisplayLabels : List String :=
  ["Title", "Media ID", "Media Config", "Regions", "Peripheral String",
   "Product Number", "Version", "Release Date", "Manufacturer ID", "TOC"]

/-- The keys of `Dreamcast._file_to_property_name`. -/
def dreamcastFileNames : List String :=
  ["dc_bios.bin", "dc_flash.bin", "syscalls.bin"]

/-- The sub-table identities the row-end dispatch recognizes. -/
def recognizedSubtables : List String := ["cd-rom", "track", "misc"]

/-- The server-identity banner pattern of the specification,
`httpd-ack v<version> server`, stated from the spec words (text that
starts with the prefix and ends with the suffix), for comparison with the
check the code performs. -/
def bannerPatternMatches (s : String) : Bool :=
  ("httpd-ack v").data.isPrefixOf s.data && (" server").data.isSuffixOf s.data

/-! ## Helper lemmas -/

theorem set_url_property_unknown (dc : Dreamcast) (url fn x : String)
    (h : fn ∉ dreamcastFileNames) :
    dc.set_url_property url fn x = (dc, false) := by
  unfold Dreamcast.set_url_property
  split <;> simp_all [dreamcastFileNames]

theorem set_property_unknown (d : Disc) (lab val : String)
    (h : lab ∉ discDisplayLabels) :
    d.set_property lab val = (d, false) := by
  unfold Disc.set_property
  split <;> simp_all [discDisplayLabels]

theorem pyEscapeBody_append (q : Char) (a b : List Char) :
    pyEscapeBody q (a ++ b) = pyEscapeBody q a ++ pyEscapeBody q b := by
  simp [pyEscapeBody]

theorem escape_fixed_39 :
    pyEscapeBody (Char.ofNat 39) ("Not Dreamcast disc").data =
      ("Not Dreamcast disc").data := by decide

theorem escape_fixed_34 :
    pyEscapeBody (Char.ofNat 34) ("Not Dreamcast disc").data =
      ("Not Dreamcast disc").data := by decide

theorem warning_of_infix (v : String)
    (h : ("Not Dreamcast disc").data <:+: v.data) :
    is_non_dreamcast_disc_warning [v] = true := by
  obtain ⟨a, b, hab⟩ := h
  have h1 : is_non_dreamcast_disc_warning [v] =
      pyStrInStr "Not Dreamcast disc" (pyStrOfStrList [v]) := by
    simp [is_non_dreamcast_disc_warning]
  rw [h1, pyStrInStr, decide_eq_true_eq]
  have h2 : pyStrOfStrList [v] = "[" ++ pyReprStr v ++ "]" := by
    simp [pyStrOfStrList]
    rfl
  rw [h2]
  have h3 : ∀ q : Char,
      pyEscapeBody q ("Not Dreamcast disc").data = ("Not Dreamcast disc").data →
      ("Not Dreamcast disc").data <:+:
        ("[" ++ String.mk (q :: (pyEscapeBody q v.data ++ [q])) ++ "]").data := by
    intro q hq
    rw [← hab, pyEscapeBody_append, pyEscapeBody_append, hq]
    refine ⟨'[' :: q :: pyEscapeBody q a,
            pyEscapeBody q b ++ [q, ']'], ?_⟩
    simp [String.data_append, List.append_assoc]
  by_cases hc : Char.ofNat 39 ∈ v.data ∧ Char.ofNat 34 ∉ v.data
  · have hr : pyReprStr v =
        String.mk (Char.ofNat 34 :: (pyEscapeBody (Char.ofNat 34) v.data ++ [Char.ofNat 34])) := by
      simp [pyReprStr, hc]
    rw [hr]
    exact h3 _ escape_fixed_34
  · have hr : pyReprStr v =
        String.mk (Char.ofNat 39 :: (pyEscapeBody (Char.ofNat 39) v.data ++ [Char.ofNat 39])) := by
      simp [pyReprStr, hc]
    rw [hr]
    exact h3 _ escape_fixed_39

/-- C1 counterexample: committing a zero-value non-header row under the
recognized identity `cd-rom` raises a `TypeError`, not a no-op. -/
theorem c1_counterexample :
    handle_table_row_end initState (some "cd-rom") [] =
      Except.error (PyError.typeError "set_property takes 2 positional arguments") := by
  rfl

/-- C1 (amended): committing a zero-value non-header row under any of the
recognized identities mutates no entity, but it is not a no-op: the
argument unpacking raises a `TypeError`. -/
theorem c1_zero_value_row_commit_raises (s : ParserState)
    (h : s.in_table_header = false) :
    handle_table_row_end s (some "cd-rom") [] =
      Except.error (PyError.typeError "set_property takes 2 positional arguments") ∧
    handle_table_row_end s (some "track") [] =
      Except.error (PyError.typeError "Track takes 5 positional arguments") ∧
    handle_table_row_end s (some "misc") [] =
      Except.error (PyError.typeError "set_url_property takes 3 positional arguments") := by
  unfold handle_table_row_end
  simp [h, is_non_dreamcast_disc_warning]

/-- C1 witness. -/
theorem c1_witness :
    handle_table_row_end initState (some "track") [] =
      Except.error (PyError.typeError "Track takes 5 positional arguments") :=
  (c1_zero_value_row_commit_raises initState rfl).2.1

/-- C2 counterexample: a `misc` row carrying exactly the two values
`(url, file_basename)` with the known basename `dc_flash.bin` raises a
`TypeError` (the binder takes three positional values), so neither of the
two claimed outcomes occurs. -/
theorem c2_counterexample :
    handle_table_row_end initState (some "misc")
        ["http://host/dc_flash.bin", "dc_flash.bin"] =
      Except.error (PyError.typeError "set_url_property takes 3 positional arguments") := by
  rfl

/-- C2 (amended): a committed non-header `misc` row carries three values
`(url, file_basename, extra)` (the third is ignored): a known basename
sets the corresponding Dreamcast URL field to `url` and leaves the Disc
(hence `gdi_url`) unchanged; an unrecognized basename sets `Disc.gdi_url`
to the row's first value and leaves the Dreamcast untouched.  Exactly one
of the two outcomes occurs per row. -/
theorem c2_misc_row_binding (s : ParserState) (url x : String)
    (h : s.in_table_header = false) :
    (handle_table_row_end s (some "misc") [url, "dc_bios.bin", x] =
      Except.ok { s with table_cell_index := none,
                         dreamcast := { s.dreamcast with bios_url := some url } }) ∧
    (handle_table_row_end s (some "misc") [url, "dc_flash.bin", x] =
      Except.ok { s with table_cell_index := none,
                         dreamcast := { s.dreamcast with flash_url := some url } }) ∧
    (handle_table_row_end s (some "misc") [url, "syscalls.bin", x] =
      Except.ok { s with table_cell_index := none,
                         dreamcast := { s.dreamcast with syscalls_url := some url } }) ∧
    (∀ fn, fn ∉ dreamcastFileNames →
      handle_table_row_end s (some "misc") [url, fn, x] =
        Except.ok { s with table_cell_index := none,
                           disc := { s.disc with gdi_url := some url } }) := by
  refine ⟨?_, ?_, ?_, ?_⟩
  · unfold handle_table_row_end
    simp [h, Dreamcast.set_url_property]
  · unfold handle_table_row_end
    simp [h, Dreamcast.set_url_property]
  · unfold handle_table_row_end
    simp [h, Dreamcast.set_url_property]
  · intro fn hfn
    unfold handle_table_row_end
    simp [h, set_url_property_unknown s.dreamcast url fn x hfn]

/-- C2 witness. -/
theorem c2_witness :
    handle_table_row_end initState (some "misc")
        ["http://host/dc_bios.bin", "dc_bios.bin", "0x00000000 - 0x001FFFFF"] =
      Except.ok { initState with table_cell_index := none,
                                 dreamcast := { initState.dreamcast with
                                                  bios_url := some "http://host/dc_bios.bin" } } :=
  (c2_misc_row_binding initState "http://host/dc_bios.bin"
    "0x00000000 - 0x001FFFFF" rfl).1

/-- C3 counterexample: in phase AFTER_TABLE the text `foo server` does not
match the banner pattern `httpd-ack v<version> server`, yet the server
version is set (to `foo`). -/
theorem c3_counterexample :
    bannerPatternMatches "foo server" = false ∧
    handle_data { initState with table_parse_time := TableParseTime.After }
        "foo server" =
      Except.ok { initState with table_parse_time := TableParseTime.After,
                                 server_version := some "foo" } := by
  constructor
  · decide
  · decide

/-- C3 (amended): for a text event in phase AFTER_TABLE, the server version
is assigned if and only if the text contains the substring ` server`; the
assigned value is the text with the prefix `httpd-ack v` removed when
present and the suffix ` server` removed when present.  Other after-table
text leaves the version unchanged. -/
theorem c3_after_table_banner (s : ParserState) (dat : String)
    (h : s.table_parse_time = TableParseTime.After) :
    (pyStrInStr " server" dat = true →
      handle_data s dat = Except.ok
        { s with server_version := some (pyStripBack (pyStripFront dat "httpd-ack v") " server") }) ∧
    (pyStrInStr " server" dat = false → handle_data s dat = Except.ok s) := by
  unfold handle_data
  constructor <;> intro hc <;> simp [h, hc]

/-- C3 witness. -/
theorem c3_witness :
    handle_data { initState with table_parse_time := TableParseTime.After }
        "httpd-ack v1.0 server" =
      Except.ok { initState with table_parse_time := TableParseTime.After,
                                 server_version := some "1.0" } := by
  have h := (c3_after_table_banner
    { initState with table_parse_time := TableParseTime.After }
    "httpd-ack v1.0 server" rfl).1 (by decide)
  rw [h]
  decide

/-- C4 (confirmed): committed non-header `cd-rom` rows: a single value
containing `Not Dreamcast disc` flips `is_dreamcast_disc` to false and
performs no label lookup; a `(display_label, value)` row sets the looked-up
field to `value` byte-for-byte; unrecognized labels leave the Disc
unchanged and raise no error. -/
theorem c4_cdrom_row_binding (s : ParserState) (val : String)
    (h : s.in_table_header = false) :
    (∀ v, ("Not Dreamcast disc").data <:+: v.data →
      handle_table_row_end s (some "cd-rom") [v] = Except.ok
        { s with table_cell_index := none,
                 disc := { s.disc with is_dreamcast_disc := false } }) ∧
    (handle_table_row_end s (some "cd-rom") ["Title", val] = Except.ok
      { s with table_cell_index := none, disc := { s.disc with title := val } }) ∧
    (handle_table_row_end s (some "cd-rom") ["Media ID", val] = Except.ok
      { s with table_cell_index := none, disc := { s.disc with media_id := val } }) ∧
    (handle_table_row_end s (some "cd-rom") ["Media Config", val] = Except.ok
      { s with table_cell_index := none, disc := { s.disc with media_config := val } }) ∧
    (handle_table_row_end s (some "cd-rom") ["Regions", val] = Except.ok
      { s with table_cell_index := none, disc := { s.disc with region := val } }) ∧
    (handle_table_row_end s (some "cd-rom") ["Peripheral String", val] = Except.ok
      { s with table_cell_index := none, disc := { s.disc with peripheral_string := val } }) ∧
    (handle_table_row_end s (some "cd-rom") ["Product Number", val] = Except.ok
      { s with table_cell_index := none, disc := { s.disc with product_number := val } }) ∧
    (handle_table_row_end s (some "cd-rom") ["Version", val] = Except.ok
      { s with table_cell_index := none, disc := { s.disc with version := val } }) ∧
    (handle_table_row_end s (some "cd-rom") ["Release Date", val] = Except.ok
      { s with table_cell_index := none, disc := { s.disc with release_date := val } }) ∧
    (handle_table_row_end s (some "cd-rom") ["Manufacturer ID", val] = Except.ok
      { s with table_cell_index := none, disc := { s.disc with manufacturer_id := val } }) ∧
    (handle_table_row_end s (some "cd-rom") ["TOC", val] = Except.ok
      { s with table_cell_index := none, disc := { s.disc with toc := val } }) ∧
    (∀ lab, lab ∉ discDisplayLabels →
      handle_table_row_end s (some "cd-rom") [lab, val] = Except.ok
        { s with table_cell_index := none }) := by
  refine ⟨fun v hv => ?_, ?_, ?_, ?_, ?_, ?_, ?_, ?_, ?_, ?_, ?_, fun lab hlab => ?_⟩
  · unfold handle_table_row_end
    simp [h, warning_of_infix v hv]
  · unfold handle_table_row_end
    simp [h, is_non_dreamcast_disc_warning, Disc.set_property]
  · unfold handle_table_row_end
    simp [h, is_non_dreamcast_disc_warning, Disc.set_property]
  · unfold handle_table_row_end
    simp [h, is_non_dreamcast_disc_warning, Disc.set_property]
  · unfold handle_table_row_end
    simp [h, is_non_dreamcast_disc_warning, Disc.set_property]
  · unfold handle_table_row_end
    simp [h, is_non_dreamcast_disc_warning, Disc.set_property]
  · unfold handle_table_row_end
    simp [h, is_non_dreamcast_disc_warning, Disc.set_property]
  · unfold handle_table_row_end
    simp [h, is_non_dreamcast_disc_warning, Disc.set_property]
  · unfold handle_table_row_end
    simp [h, is_non_dreamcast_disc_warning, Disc.set_property]
  · unfold handle_table_row_end
    simp [h, is_non_dreamcast_disc_warning, Disc.set_property]
  · unfold handle_table_row_end
    simp [h, is_non_dreamcast_disc_warning, Disc.set_property]
  · unfold handle_table_row_end
    simp [h, is_non_dreamcast_disc_warning,
          set_property_unknown s.disc lab val hlab]

/-- C4 witness. -/
theorem c4_witness :
    handle_table_row_end initState (some "cd-rom") ["Title", "Sonic Adventure"] =
      Except.ok { initState with table_cell_index := none,
                                 disc := { initState.disc with title := "Sonic Adventure" } } ∧
    handle_table_row_end initState (some "cd-rom") ["Warning: Not Dreamcast disc inserted"] =
      Except.ok { initState with table_cell_index := none,
                                 disc := { initState.disc with is_dreamcast_disc := false } } ∧
    handle_table_row_end initState (some "cd-rom") ["Bogus Label", "v"] =
      Except.ok { initState with table_cell_index := none } :=
  ⟨(c4_cdrom_row_binding initState "Sonic Adventure" rfl).2.1,
   (c4_cdrom_row_binding initState "x" rfl).1
     "Warning: Not Dreamcast disc inserted" (by decide),
   (c4_cdrom_row_binding initState "v" rfl).2.2.2.2.2.2.2.2.2.2.2
     "Bogus Label" (by decide)⟩

theorem rowEnd_unrecognized (s : ParserState) (o : Option String) (rd : List String)
    (h : s.in_table_header = false)
    (h1 : o ≠ some "cd-rom") (h2 : o ≠ some "track") (h3 : o ≠ some "misc") :
    handle_table_row_end s o rd =
      Except.error (PyError.assertionError
        ("Ended table row with unexpected subtable name " ++ pyStrOfOptStr o)) := by
  unfold handle_table_row_end
  simp only [h]
  rw [if_neg (by simp)]

theorem rowEnd_track_arity (s : ParserState) (rd : List String)
    (h : s.in_table_header = false) (hlen : rd.length ≠ 5) :
    handle_table_row_end s (some "track") rd =
      Except.error (PyError.typeError "Track takes 5 positional arguments") := by
  unfold handle_table_row_end
  simp only [h]
  rcases rd with _ | ⟨a, _ | ⟨b, _ | ⟨c, _ | ⟨d, _ | ⟨e, _ | ⟨f, rest⟩⟩⟩⟩⟩⟩ <;> simp_all

/-- C5 (confirmed): committing a non-header row under an identity other
than `cd-rom` / `track` / `misc` (the initial `None` included), or a
`track` row whose value count is not five, makes the whole remaining parse
abort with a fatal error, whatever events follow: no further entity
mutation happens. -/
theorem c5_structural_errors_abort (s : ParserState) (es : List Event)
    (h : s.in_table_header = false)
    (ht : s.table_parse_time = TableParseTime.During) :
    (s.subtable ≠ some "cd-rom" → s.subtable ≠ some "track" →
      s.subtable ≠ some "misc" →
      processEvents s (Event.endTag "tr" :: es) =
        Except.error (PyError.assertionError
          ("Ended table row with unexpected subtable name " ++
            pyStrOfOptStr s.subtable))) ∧
    (s.subtable = some "track" → s.table_row_data.length ≠ 5 →
      processEvents s (Event.endTag "tr" :: es) =
        Except.error (PyError.typeError "Track takes 5 positional arguments")) := by
  constructor
  · intro h1 h2 h3
    have hr := rowEnd_unrecognized s s.subtable s.table_row_data h h1 h2 h3
    simp [processEvents, processEvent, handle_endtag, ht, hr]
  · intro hsub hlen
    have hr : handle_table_row_end s s.subtable s.table_row_data =
        Except.error (PyError.typeError "Track takes 5 positional arguments") := by
      rw [hsub]
      exact rowEnd_track_arity s s.table_row_data h hlen
    simp [processEvents, processEvent, handle_endtag, ht, hr]

/-- C5 witness. -/
theorem c5_witness :
    processEvents
        { initState with table_parse_time := TableParseTime.During,
                         subtable := some "bogus" }
        [Event.endTag "tr", Event.dataText "x"] =
      Except.error (PyError.assertionError
        "Ended table row with unexpected subtable name bogus") ∧
    processEvents
        { initState with table_parse_time := TableParseTime.During,
                         subtable := some "track", table_row_data := ["a", "b"] }
        [Event.endTag "tr", Event.dataText "x"] =
      Except.error (PyError.typeError "Track takes 5 positional arguments") := by
  constructor
  · have h := (c5_structural_errors_abort
      { initState with table_parse_time := TableParseTime.During,
                       subtable := some "bogus" }
      [Event.dataText "x"] rfl rfl).1 (by decide) (by decide) (by decide)
    exact h.trans (by decide)
  · exact (c5_structural_errors_abort
      { initState with table_parse_time := TableParseTime.During,
                       subtable := some "track", table_row_data := ["a", "b"] }
      [Event.dataText "x"] rfl rfl).2 rfl (by decide)

/-- C7 (confirmed): a header row (header flag set by its `<tr>` attrs or
sticky-OR by any `<td>` attrs) commits without touching any entity; its
only effect is that text at cell index 0 becomes the sub-table identity,
lower-cased (text at other cells does nothing). -/
theorem c7_header_rows (s : ParserState) (o : Option String) (rd : List String)
    (attrs : List (String × String)) (dat : String)
    (hh : s.in_table_header = true)
    (ht : s.table_parse_time = TableParseTime.During) :
    (handle_table_row_end s o rd =
      Except.ok { s with table_cell_index := none, in_table_header := false }) ∧
    (handle_starttag s "td" attrs = Except.ok
      { s with in_table_cell := some true, in_table_header := true }) ∧
    (s.table_cell_index = some 0 →
      handle_data s dat = Except.ok { s with subtable := some (pyLower dat) }) ∧
    (∀ i, s.table_cell_index = some i → i ≠ 0 →
      handle_data s dat = Except.ok s) := by
  refine ⟨?_, ?_, fun hc => ?_, fun i hc hi => ?_⟩
  · unfold handle_table_row_end
    simp [hh]
  · unfold handle_starttag
    simp [ht, hh]
  · unfold handle_data
    simp [ht, hh, hc]
  · unfold handle_data
    simp [ht, hh, hc, hi]

/-- C7 witness. -/
theorem c7_witness :
    handle_table_row_end
        { initState with table_parse_time := TableParseTime.During,
                         in_table_header := true, subtable := some "misc",
                         table_cell_index := some 2 }
        (some "misc") ["x"] =
      Except.ok { initState with table_parse_time := TableParseTime.During,
                                 in_table_header := false,
                                 subtable := some "misc",
                                 table_cell_index := none } ∧
    handle_data
        { initState with table_parse_time := TableParseTime.During,
                         in_table_header := true, subtable := some "misc",
                         table_cell_index := some 0 }
        "CD-ROM" =
      Except.ok { initState with table_parse_time := TableParseTime.During,
                                 in_table_header := true,
                                 subtable := some (pyLower "CD-ROM"),
                                 table_cell_index := some 0 } := by
  constructor
  · exact (c7_header_rows
      { initState with table_parse_time := TableParseTime.During,
                       in_table_header := true, subtable := some "misc",
                       table_cell_index := some 2 }
      (some "misc") ["x"] [] "d" rfl rfl).1
  · exact (c7_header_rows
      { initState with table_parse_time := TableParseTime.During,
                       in_table_header := true, subtable := some "misc",
                       table_cell_index := some 0 }
      (some "misc") ["x"] [] "CD-ROM" rfl rfl).2.2.1 rfl

/-- C8 (confirmed): a `<tr>` start while a row is still open (cell index
non-null) first commits the open row through the same row-end algorithm,
with exactly the accumulated values, and only then starts the new row with
cell index 0 and an empty value buffer. -/
theorem c8_implicit_row_close (s : ParserState) (attrs : List (String × String))
    (i : Nat) (ht : s.table_parse_time = TableParseTime.During)
    (hc : s.table_cell_index = some i) :
    handle_starttag s "tr" attrs =
      (handle_table_row_end s s.subtable s.table_row_data).map
        (fun s1 => { s1 with in_table_header := is_table_header_attrs attrs,
                             table_cell_index := some 0,
                             table_row_data := [] }) := by
  unfold handle_starttag
  simp [ht, hc]

/-- C8 witness. -/
theorem c8_witness :
    handle_starttag
        { initState with table_parse_time := TableParseTime.During,
                         subtable := some "track", table_cell_index := some 5,
                         table_row_data := ["u", "n", "0", "1", "2"] }
        "tr" [] =
      (handle_table_row_end
        { initState with table_parse_time := TableParseTime.During,
                         subtable := some "track", table_cell_index := some 5,
                         table_row_data := ["u", "n", "0", "1", "2"] }
        (some "track") ["u", "n", "0", "1", "2"]).map
        (fun s1 => { s1 with in_table_header := is_table_header_attrs [],
                             table_cell_index := some 0,
                             table_row_data := [] }) :=
  c8_implicit_row_close
    { initState with table_parse_time := TableParseTime.During,
                     subtable := some "track", table_cell_index := some 5,
                     table_row_data := ["u", "n", "0", "1", "2"] }
    [] 5 rfl rfl

theorem except_map_ok {ε α β : Type} (f : α → β) (x : Except ε α) (b : β)
    (h : x.map f = Except.ok b) : ∃ a, x = Except.ok a ∧ f a = b := by
  cases x with
  | ok a =>
    refine ⟨a, rfl, ?_⟩
    simpa [Except.map] using h
  | error e => simp [Except.map] at h

theorem set_property_tracks (d : Disc) (lab val : String) :
    ((d.set_property lab val).1).tracks = d.tracks := by
  unfold Disc.set_property
  split <;> rfl

theorem rowEnd_ok_inv (s : ParserState) (o : Option String) (rd : List String)
    (s1 : ParserState) (h : handle_table_row_end s o rd = Except.ok s1) :
    s.disc.tracks <+: s1.disc.tracks ∧
    s1.in_table_cell = s.in_table_cell := by
  simp only [handle_table_row_end] at h
  repeat' split at h
  all_goals first
    | exact Except.noConfusion h
    | (obtain rfl := Except.ok.inj h
       refine ⟨?_, rfl⟩
       simp [set_property_tracks, Disc.add_track, List.prefix_append])

theorem event_ok_inv (s : ParserState) (e : Event) (s1 : ParserState)
    (h : processEvent s e = Except.ok s1) :
    s.disc.tracks <+: s1.disc.tracks := by
  cases e with
  | startTag tag attrs =>
    simp only [processEvent] at h
    unfold handle_starttag at h
    by_cases h1 : tag = "tr"
    · subst h1
      rw [if_neg (by decide), if_pos rfl] at h
      split at h
      · exact Except.noConfusion h
      · obtain ⟨s2, hx, hf⟩ := except_map_ok _ _ _ h
        have h2 : s.disc.tracks <+: s2.disc.tracks := by
          split at hx
          · exact (rowEnd_ok_inv _ _ _ _ hx).1
          · obtain rfl := Except.ok.inj hx
            exact List.prefix_refl _
        obtain rfl := hf
        simpa using h2
    · repeat' split at h
      all_goals first
        | exact Except.noConfusion h
        | (obtain rfl := Except.ok.inj h
           simp)
  | endTag tag =>
    simp only [processEvent] at h
    unfold handle_endtag at h
    by_cases h1 : tag = "tr"
    · subst h1
      rw [if_neg (by decide), if_pos rfl] at h
      split at h
      · exact Except.noConfusion h
      · exact (rowEnd_ok_inv _ _ _ _ h).1
    · repeat' split at h
      all_goals first
        | exact Except.noConfusion h
        | (obtain rfl := Except.ok.inj h
           simp)
  | dataText d =>
    simp only [processEvent] at h
    unfold handle_data at h
    repeat' split at h
    all_goals first
      | exact Except.noConfusion h
      | (obtain rfl := Except.ok.inj h
         simp)

theorem run_tracks (es : List Event) : ∀ s s1 : ParserState,
    processEvents s es = Except.ok s1 →
    s.disc.tracks <+: s1.disc.tracks := by
  induction es with
  | nil =>
    intro s s1 h
    obtain rfl := Except.ok.inj h
    exact List.prefix_refl _
  | cons e es ih =>
    intro s s1 h
    unfold processEvents at h
    cases hE : processEvent s e with
    | ok s2 =>
      simp only [hE] at h
      exact (event_ok_inv s e s2 hE).trans (ih s2 s1 h)
    | error err =>
      rw [hE] at h
      exact Except.noConfusion h

/-- C6 (confirmed): a committed non-header `track` row of five values
`(url, name, sector_start, sector_end, size)` appends exactly the Track
with those fields, in that order, at the end of `Disc.tracks`; and over
any event run the track list is append-only (the earlier list stays a
prefix), so `Disc.tracks[i]` is the i-th committed track row in encounter
order. -/
theorem c6_track_rows (s : ParserState) (u n st en sz : String)
    (h : s.in_table_header = false) :
    (handle_table_row_end s (some "track") [u, n, st, en, sz] = Except.ok
      { s with table_cell_index := none,
               disc := { s.disc with
                           tracks := s.disc.tracks ++
                             [{ url := u, name := n, sector_start := st,
                                sector_end := en, size := sz }] } }) ∧
    (∀ es s1, processEvents s es = Except.ok s1 →
      ∃ t, s1.disc.tracks = s.disc.tracks ++ t) := by
  constructor
  · unfold handle_table_row_end
    simp [h, Disc.add_track]
  · intro es s1 hrun
    obtain ⟨t, ht⟩ := run_tracks es s s1 hrun
    exact ⟨t, ht.symm⟩

/-- C6 witness. -/
theorem c6_witness :
    handle_table_row_end
        { initState with table_parse_time := TableParseTime.During,
                         subtable := some "track" }
        (some "track") ["iso9660/track01.bin", "data", "0", "44849", "91997184"] =
      Except.ok { initState with
                    table_parse_time := TableParseTime.During,
                    subtable := some "track", table_cell_index := none,
                    disc := { initState.disc with
                                tracks := [{ url := "iso9660/track01.bin",
                                             name := "data", sector_start := "0",
                                             sector_end := "44849",
                                             size := "91997184" }] } } ∧
    (∃ t, initState.disc.tracks = initState.disc.tracks ++ t) := by
  constructor
  · exact (c6_track_rows
      { initState with table_parse_time := TableParseTime.During,
                       subtable := some "track" }
      "iso9660/track01.bin" "data" "0" "44849" "91997184" rfl).1
  · exact (c6_track_rows initState "u" "n" "a" "b" "c" rfl).2 [] initState rfl

theorem event_cell (s : ParserState) (e : Event) (s1 : ParserState)
    (h : processEvent s e = Except.ok s1)
    (ha : ∀ a, e ≠ Event.startTag "td" a)
    (hb : e ≠ Event.endTag "td")
    (hc : s.in_table_cell = none) : s1.in_table_cell = none := by
  cases e with
  | startTag tag attrs =>
    have htag : tag ≠ "td" := by
      intro hx
      exact ha attrs (by rw [hx])
    simp only [processEvent] at h
    unfold handle_starttag at h
    by_cases h1 : tag = "tr"
    · subst h1
      rw [if_neg (by decide), if_pos rfl] at h
      split at h
      · exact Except.noConfusion h
      · obtain ⟨s2, hx, hf⟩ := except_map_ok _ _ _ h
        have h2 : s2.in_table_cell = none := by
          split at hx
          · rw [(rowEnd_ok_inv _ _ _ _ hx).2]
            exact hc
          · obtain rfl := Except.ok.inj hx
            exact hc
        obtain rfl := hf
        simpa using h2
    · repeat' split at h
      all_goals first
        | exact Except.noConfusion h
        | (obtain rfl := Except.ok.inj h
           simpa using hc)
  | endTag tag =>
    have htag : tag ≠ "td" := by
      intro hx
      exact hb (by rw [hx])
    simp only [processEvent] at h
    unfold handle_endtag at h
    by_cases h1 : tag = "tr"
    · subst h1
      rw [if_neg (by decide), if_pos rfl] at h
      split at h
      · exact Except.noConfusion h
      · rw [(rowEnd_ok_inv _ _ _ _ h).2]
        exact hc
    · repeat' split at h
      all_goals first
        | exact Except.noConfusion h
        | (obtain rfl := Except.ok.inj h
           simpa using hc)
  | dataText d =>
    simp only [processEvent] at h
    unfold handle_data at h
    repeat' split at h
    all_goals first
      | exact Except.noConfusion h
      | (obtain rfl := Except.ok.inj h
         simpa using hc)

theorem run_cell (es : List Event) : ∀ s s1 : ParserState,
    (∀ e ∈ es, (∀ a, e ≠ Event.startTag "td" a) ∧ e ≠ Event.endTag "td") →
    processEvents s es = Except.ok s1 → s.in_table_cell = none →
    s1.in_table_cell = none := by
  induction es with
  | nil =>
    intro s s1 _ h hc
    obtain rfl := Except.ok.inj h
    exact hc
  | cons e es ih =>
    intro s s1 hes h hc
    unfold processEvents at h
    cases hE : processEvent s e with
    | ok s2 =>
      simp only [hE] at h
      have h2 := event_cell s e s2 hE (hes e (by simp)).1 (hes e (by simp)).2 hc
      exact ih s2 s1 (fun e1 he1 => hes e1 (List.mem_cons_of_mem _ he1)) h h2
    | error err =>
      rw [hE] at h
      exact Except.noConfusion h

theorem processEvents_cons (s : ParserState) (e : Event) (es : List Event) :
    processEvents s (e :: es) =
      match processEvent s e with
      | Except.ok s2 => processEvents s2 es
      | Except.error err => Except.error err := rfl

theorem processEvents_append (es es1 : List Event) : ∀ s : ParserState,
    processEvents s (es ++ es1) =
      (processEvents s es).bind (fun s2 => processEvents s2 es1) := by
  induction es with
  | nil => intro s; rfl
  | cons e es ih =>
    intro s
    rw [List.cons_append, processEvents_cons, processEvents_cons]
    cases hE : processEvent s e with
    | ok s2 =>
      simp only [hE]
      exact ih s2
    | error err =>
      simp only [hE]
      rfl

/-- C9: `Dumper.dump_disc_track` computes `len(track_index) - 1` — `len`
of its integer argument — so it raises a `TypeError` that names no
resource, before the track URL is ever validated: here the stored track
URL is empty, yet the error is not the descriptive missing-URL error. -/
theorem c9_dump_disc_track_len_bug :
    (Dumper.mk { tracks := [{ url := "", name := "track01", sector_start := "0",
                              sector_end := "1", size := "2" }] }
       {} "http://host").dump_disc_track 0 =
      Except.error (PyError.typeError "object of type int has no len") ∧
    (Dumper.mk { tracks := [{ url := "", name := "track01", sector_start := "0",
                              sector_end := "1", size := "2" }] }
       {} "http://host").dump_bios =
      Except.error (PyError.valueError
        "Unable to find download URL for Dreamcast BIOS!") := by
  constructor
  · rfl
  · rfl

/-- C10 counterexample: an `<a>` start tag that arrives before the first
`<td>` START tag does not necessarily raise: a `</td>` end tag also
assigns the in-cell flag, after which the anchor is silently ignored and
the run succeeds. -/
theorem c10_counterexample :
    processEvents initState
        [Event.startTag "table" [], Event.startTag "tr" [], Event.endTag "td",
         Event.startTag "a" [("href", "x")]] =
      Except.ok { initState with table_parse_time := TableParseTime.During,
                                 table_cell_index := some 1,
                                 in_table_cell := some false } := by
  decide

/-- C10 (amended): in any event stream in which an `<a>` start tag occurs
before the first `<td>` START OR END tag of the session, the in-cell flag
is still unassigned, and the anchor handler raises an `AttributeError` at
that anchor event (aborting the stream there). -/
theorem c10_anchor_before_first_td (es : List Event) (s : ParserState)
    (attrs : List (String × String))
    (hes : ∀ e ∈ es, (∀ a, e ≠ Event.startTag "td" a) ∧ e ≠ Event.endTag "td")
    (hrun : processEvents initState es = Except.ok s) :
    handle_starttag s "a" attrs =
      Except.error (PyError.attributeError
        "HttpdAckParser object has no attribute in_table_cell") ∧
    processEvents initState (es ++ [Event.startTag "a" attrs]) =
      Except.error (PyError.attributeError
        "HttpdAckParser object has no attribute in_table_cell") := by
  have hcell : s.in_table_cell = none :=
    run_cell es initState s hes hrun rfl
  have h1 : handle_starttag s "a" attrs =
      Except.error (PyError.attributeError
        "HttpdAckParser object has no attribute in_table_cell") := by
    unfold handle_starttag
    simp [hcell]
  refine ⟨h1, ?_⟩
  rw [processEvents_append, hrun]
  simp [Except.bind, processEvents_cons, processEvent, h1]

/-- C10 witness. -/
theorem c10_witness :
    handle_starttag initState "a" [("href", "x")] =
      Except.error (PyError.attributeError
        "HttpdAckParser object has no attribute in_table_cell") :=
  (c10_anchor_before_first_td [] initState [("href", "x")]
    (by simp) rfl).1
